import Mathlib

deriving instance DecidableEq for Except

/-!
Verification of the node-rsvg facade (src/index.js) against its design spec.

The file shallowly embeds the JavaScript facade:
* JS values relevant to argument dispatch are the inductive `JSVal`.
* The opaque native engine (`this._handle`) is a parameter: parsing is a
  function `List Nat → Except String Doc` (the error carries the engine
  diagnostic message), and rendering is a function
  `EngineCall → Nat → EngineResult` where the second argument counts prior
  engine invocations, so that a transient fault (an empty buffer on one call,
  a non-empty one on the retry) is expressible.
* The unbounded recursive retry of `render` is embedded with explicit fuel;
  `none` stands for non-termination (fuel exhausted).
-/

namespace Rsvg

/-- Intrinsic document state after a successful engine parse:
`getWidth`/`getHeight` of the handle (non-negative integers per the spec). -/
structure Doc where
  width : Nat
  height : Nat
deriving DecidableEq, Repr

/-- The options-object argument of the canonical `render(options)` call shape.
A field of value `none` is an absent key (JS `undefined`).  The `element`
field exists because the four legacy helpers pass the subelement under the
key `element`, while `render` itself reads the key `id`. -/
structure RenderOptions where
  format : Option String := none
  width : Option Int := none
  height : Option Int := none
  id : Option String := none
  element : Option String := none
deriving DecidableEq, Repr

/-- JS values as far as the facade's dispatch logic distinguishes them. -/
inductive JSVal where
  | undef : JSVal
  | null : JSVal
  | num : Int → JSVal
  | str : String → JSVal
  | obj : RenderOptions → JSVal
deriving DecidableEq, Repr

/-- `typeof v === 'object'`: true exactly for objects and `null`. -/
def isObjectType : JSVal → Bool
  | JSVal.null => true
  | JSVal.obj _ => true
  | _ => false

/-- JS truthiness of the values modelled by `JSVal`. -/
def jsTruthy : JSVal → Bool
  | JSVal.undef => false
  | JSVal.null => false
  | JSVal.num n => decide (n ≠ 0)
  | JSVal.str s => decide (s ≠ "")
  | JSVal.obj _ => true

/-- The four positional arguments handed to the native
`this._handle.render(width, height, format, id)`. -/
structure EngineCall where
  width : JSVal
  height : JSVal
  format : JSVal
  id : JSVal
deriving DecidableEq, Repr

/-- The object returned by the native render call:
`{data, format, width, height, pixelFormat?}`. -/
structure EngineResult where
  data : List Nat
  format : String
  width : Int
  height : Int
  pixelFormat : Option String := none
deriving DecidableEq, Repr

/-- The inputs a caller can hand to the constructor. -/
inductive ConstructorInput where
  | str : String → ConstructorInput
  | buf : List Nat → ConstructorInput
  | num : Int → ConstructorInput
  | bool : Bool → ConstructorInput
  | null : ConstructorInput
  | undef : ConstructorInput
deriving DecidableEq, Repr

/-- Whether the constructor input is a string or a Buffer (the two accepted
types; everything else is rejected before the engine is consulted). -/
def validInputType : ConstructorInput → Bool
  | ConstructorInput.str _ => true
  | ConstructorInput.buf _ => true
  | _ => false

/-- `Buffer.from(string)`: UTF-8 transcoding of a JS string to bytes. -/
def utf8Encode (s : String) : List Nat :=
  s.toUTF8.toList.map (fun b => b.toNat)

/-- The errors the constructor can surface: the `TypeError` for a
non-string, non-Buffer input, and the load-failure `Error` wrapping the
engine diagnostic in its message. -/
inductive ConstructError where
  | invalidInputType : ConstructError
  | loadFailure : String → ConstructError
deriving DecidableEq, Repr

/-- Which construction errors are `TypeError` instances in the source
(`throw new TypeError(...)` versus `throw new Error(...)`). -/
def ConstructError.isTypeError : ConstructError → Bool
  | ConstructError.invalidInputType => true
  | ConstructError.loadFailure _ => false

/-- The facade's engine handle together with the number of times the
load-resource release step (`this._handle.close()`) has been performed. -/
structure Handle where
  doc : Doc
  releaseCount : Nat
deriving DecidableEq, Repr

/-- `this._handle.close()`: the scoped load-resource release step. -/
def Handle.close (h : Handle) : Handle :=
  { h with releaseCount := h.releaseCount + 1 }

/-- The bytes the constructor would hand to the engine: the Buffer itself, or
the UTF-8 transcoding of a string; `none` for an invalid input type. -/
def inputBytes : ConstructorInput → Option (List Nat)
  | ConstructorInput.str s => some (utf8Encode s)
  | ConstructorInput.buf b => some b
  | _ => none

/-- Body of the constructor after the type check: parse the bytes via the
engine (`new binding.Rsvg(buffer)`), then perform the single release step
(`this._handle.close()`); a parse failure is rethrown as
`Error` with message `Rsvg load failure: ` followed by the diagnostic. -/
def constructBuf (parse : List Nat → Except String Doc) (b : List Nat) :
    Except ConstructError Handle :=
  match parse b with
  | Except.ok d => Except.ok (Handle.close { doc := d, releaseCount := 0 })
  | Except.error msg => Except.error (ConstructError.loadFailure ("Rsvg load failure: " ++ msg))

/-- The constructor `new Rsvg(buffer)`: strings are transcoded with
`Buffer.from`, non-Buffer non-string inputs raise the `TypeError`, and
Buffers are parsed by the engine. -/
def construct (parse : List Nat → Except String Doc) :
    ConstructorInput → Except ConstructError Handle
  | ConstructorInput.str s => constructBuf parse (utf8Encode s)
  | ConstructorInput.buf b => constructBuf parse b
  | _ => Except.error ConstructError.invalidInputType

/-- The JS value `render` passes for a possibly-absent integer option
(an absent key is `undefined`). -/
def jsOfIntOpt : Option Int → JSVal
  | some n => JSVal.num n
  | none => JSVal.undef

/-- The JS value `render` passes for a possibly-absent string option. -/
def jsOfStrOpt : Option String → JSVal
  | some s => JSVal.str s
  | none => JSVal.undef

/-- The engine call the canonical path makes:
`this._handle.render(options.width, options.height, options.format, options.id)`.
Note that `options.element` is never read. -/
def callOfOptions (o : RenderOptions) : EngineCall :=
  { width := jsOfIntOpt o.width, height := jsOfIntOpt o.height,
    format := jsOfStrOpt o.format, id := jsOfStrOpt o.id }

/-- `String.prototype.toLowerCase()` on the ASCII format strings the facade
deals in: each character is lowercased individually. -/
def jsToLowerCase (s : String) : String :=
  String.mk (s.data.map Char.toLower)

/-- The expression `format ? format.toLowerCase() : null` of `_renderArgs`:
falsy values become `null`; a truthy string is lowercased; `toLowerCase` on
a truthy non-string raises a `TypeError` (`none`). -/
def lowerFmtArg : JSVal → Option JSVal
  | JSVal.str s => some (if s = "" then JSVal.null else JSVal.str (jsToLowerCase s))
  | JSVal.undef => some JSVal.null
  | JSVal.null => some JSVal.null
  | JSVal.num n => if n = 0 then some JSVal.null else none
  | JSVal.obj _ => none

/-- Render-path errors: the `TypeError` from lowercasing a non-string, and
the engine's `UnsupportedFormat` rejection. -/
inductive JSError where
  | typeError : JSError
  | unsupportedFormat : JSError
deriving DecidableEq, Repr

/-- `_renderArgs(width, height, format, id)`: invoke the engine directly with
the format lowercased (or `null` when falsy).  The `k` argument is the number
of engine invocations already made. -/
def renderArgs (eng : EngineCall → Nat → EngineResult) (k : Nat)
    (w h f id : JSVal) : Except JSError EngineResult :=
  match lowerFmtArg f with
  | some fv => Except.ok (eng { width := w, height := h, format := fv, id := id } k)
  | none => Except.error JSError.typeError

/-- The canonical options-object body of `render`: call the engine, and when
the intrinsic size is non-degenerate but the returned buffer is empty, retry
by re-invoking `render` with the identical options.  The source recursion is
unbounded; here `fuel` bounds it and `none` models non-termination. -/
def renderOptions (doc : Doc) (eng : EngineCall → Nat → EngineResult) :
    Nat → Nat → RenderOptions → Option EngineResult
  | 0, _, _ => none
  | fuel + 1, k, o =>
      let img := eng (callOfOptions o) k
      if 0 < doc.width + doc.height ∧ img.data.length = 0 then
        renderOptions doc eng fuel (k + 1) o
      else
        some img

/-- `options || {}`: the canonical path's options object, given that the
single argument passed the `typeof` check (so it is an object or `null`). -/
def optionsOfHead : JSVal → RenderOptions
  | JSVal.obj o => o
  | _ => {}

/-- The public `render` method on its raw argument list: more than one
argument, or a first argument that is not of object type, dispatches to
`_renderArgs` (missing positional arguments are `undefined`); otherwise the
canonical options path runs with its empty-buffer retry. -/
def render (doc : Doc) (eng : EngineCall → Nat → EngineResult)
    (fuel k : Nat) (args : List JSVal) : Except JSError (Option EngineResult) :=
  if 1 < args.length || !(isObjectType (args.headD JSVal.undef)) then
    (renderArgs eng k (args.getD 0 JSVal.undef) (args.getD 1 JSVal.undef)
      (args.getD 2 JSVal.undef) (args.getD 3 JSVal.undef)).map some
  else
    Except.ok (renderOptions doc eng fuel k (optionsOfHead (args.headD JSVal.undef)))

/-- `renderRaw(width, height, id)`:
`this.render({format: 'raw', width: width, height: height, element: id})`. -/
def renderRaw (doc : Doc) (eng : EngineCall → Nat → EngineResult)
    (fuel k : Nat) (w h : Option Int) (id : Option String) :
    Except JSError (Option EngineResult) :=
  render doc eng fuel k
    [JSVal.obj { format := some "raw", width := w, height := h, element := id }]

/-- `renderPNG(width, height, id)`:
`this.render({format: 'png', width: width, height: height, element: id})`. -/
def renderPNG (doc : Doc) (eng : EngineCall → Nat → EngineResult)
    (fuel k : Nat) (w h : Option Int) (id : Option String) :
    Except JSError (Option EngineResult) :=
  render doc eng fuel k
    [JSVal.obj { format := some "png", width := w, height := h, element := id }]

/-- `renderPDF(width, height, id)`:
`this.render({format: 'pdf', width: width, height: height, element: id})`. -/
def renderPDF (doc : Doc) (eng : EngineCall → Nat → EngineResult)
    (fuel k : Nat) (w h : Option Int) (id : Option String) :
    Except JSError (Option EngineResult) :=
  render doc eng fuel k
    [JSVal.obj { format := some "pdf", width := w, height := h, element := id }]

/-- `renderSVG(width, height, id)`:
`this.render({format: 'svg', width: width, height: height, element: id})`. -/
def renderSVG (doc : Doc) (eng : EngineCall → Nat → EngineResult)
    (fuel k : Nat) (w h : Option Int) (id : Option String) :
    Except JSError (Option EngineResult) :=
  render doc eng fuel k
    [JSVal.obj { format := some "svg", width := w, height := h, element := id }]

/-- Modelled from the spec: the enumerated render-format set matched by the
native engine, which is not under src/ (src/index.js documents the valid
formats as png, pdf, svg, raw and the raw pixel structures argb32, rgb24,
a8, a1, rgb16_565, rgb30). -/
def supportedFormats : List String :=
  ["raw", "png", "pdf", "svg", "argb32", "rgb24", "a8", "a1", "rgb16_565", "rgb30"]

/-- Modelled from the spec: the native engine render entry point rejecting an
unrecognized format string with `UnsupportedFormat` (the matching itself is in
the binding, not under src/); a recognized or absent format delegates to the
opaque renderer. -/
def engineChecked (eng : EngineCall → Nat → EngineResult) (c : EngineCall)
    (k : Nat) : Except JSError EngineResult :=
  match c.format with
  | JSVal.str s =>
      if s ∈ supportedFormats then Except.ok (eng c k)
      else Except.error JSError.unsupportedFormat
  | JSVal.null => Except.ok (eng c k)
  | JSVal.undef => Except.ok (eng c k)
  | _ => Except.error JSError.unsupportedFormat

/-- `_renderArgs` composed with the format-validating engine view: what a
legacy positional call observes when the format string is unrecognized. -/
def renderArgsChecked (eng : EngineCall → Nat → EngineResult) (k : Nat)
    (w h f id : JSVal) : Except JSError EngineResult :=
  match lowerFmtArg f with
  | some fv => engineChecked eng { width := w, height := h, format := fv, id := id } k
  | none => Except.error JSError.typeError

/-- The bounding box returned by the engine's autocrop scan (idealized as
exact rationals). -/
structure RawBBox where
  x : ℚ
  y : ℚ
  width : ℚ
  height : ℚ

/-- `v.toFixed(3) * 1`: rounding to 3 decimal digits, ties away from the
smaller value (ECMA toFixed picks the larger candidate integer). -/
def toFixed3 (q : ℚ) : ℚ :=
  (round (q * 1000) : ℤ) / 1000

/-- `autocrop()`: take the engine's raw area and round each of the four
fields to 3 decimal digits before returning it. -/
def autocrop (area : RawBBox) : RawBBox :=
  { x := toFixed3 area.x, y := toFixed3 area.y,
    width := toFixed3 area.width, height := toFixed3 area.height }

/-! Concrete engines, parsers and documents used to instantiate the
theorems on closed inputs. -/

/-- A 10x10 intrinsic-size document (non-degenerate). -/
def docSquare : Doc := { width := 5, height := 5 }

/-- A 1x1 intrinsic-size document (non-degenerate). -/
def docPlain : Doc := { width := 1, height := 1 }

/-- A degenerate document with zero intrinsic size. -/
def docZero : Doc := { width := 0, height := 0 }

/-- A thin 1x0 document (still non-degenerate: width + height > 0). -/
def docThin : Doc := { width := 1, height := 0 }

/-- An engine with a transient fault: the first invocation returns an empty
buffer, every later one a non-empty buffer. -/
def engTransient : EngineCall → Nat → EngineResult := fun _ k =>
  if k = 0 then { data := [], format := "png", width := 10, height := 10 }
  else { data := [7], format := "png", width := 10, height := 10 }

/-- An engine whose output depends on the subelement id it is handed. -/
def engIdSensitive : EngineCall → Nat → EngineResult := fun c _ =>
  if c.id = JSVal.str "#e" then { data := [1], format := "png", width := 1, height := 1 }
  else { data := [2], format := "png", width := 1, height := 1 }

/-- An engine that always returns an empty buffer. -/
def engEmpty : EngineCall → Nat → EngineResult := fun _ _ =>
  { data := [], format := "png", width := 0, height := 0 }

/-- An engine that always returns the same non-empty buffer. -/
def engConst : EngineCall → Nat → EngineResult := fun _ _ =>
  { data := [5], format := "png", width := 1, height := 1 }

/-- A parser that always succeeds with a 3x4 document. -/
def parseOkW : List Nat → Except String Doc := fun _ =>
  Except.ok { width := 3, height := 4 }

/-- A parser that always fails with diagnostic message `boom`. -/
def parseFailW : List Nat → Except String Doc := fun _ =>
  Except.error "boom"

/-! Helper lemmas. -/

/-- On a non-degenerate document, any result the canonical render path
returns has a non-empty payload: the retry guard masks every empty buffer. -/
lemma renderOptions_ok_nonempty (doc : Doc) (eng : EngineCall → Nat → EngineResult)
    (hdoc : 0 < doc.width + doc.height) :
    ∀ fuel k o r, renderOptions doc eng fuel k o = some r → r.data.length ≠ 0 := by
  intro fuel
  induction fuel with
  | zero =>
      intro k o r hr
      simp [renderOptions] at hr
  | succ n ih =>
      intro k o r hr
      simp only [renderOptions] at hr
      split at hr
      · exact ih _ _ _ hr
      · next hcond =>
          injection hr with hr
          subst hr
          intro hlen
          exact hcond ⟨hdoc, hlen⟩

/-- The canonical render path only inspects its options through the engine
call it builds from them, so options with equal projections render equally. -/
lemma renderOptions_call_congr (doc : Doc) (eng : EngineCall → Nat → EngineResult)
    (o o' : RenderOptions) (hc : callOfOptions o = callOfOptions o') :
    ∀ fuel k, renderOptions doc eng fuel k o = renderOptions doc eng fuel k o' := by
  intro fuel
  induction fuel with
  | zero => intro k; rfl
  | succ n ih =>
      intro k
      simp only [renderOptions]
      rw [hc]
      by_cases hcond : 0 < doc.width + doc.height ∧ (eng (callOfOptions o') k).data.length = 0
      · rw [if_pos hcond, if_pos hcond]
        exact ih (k + 1)
      · rw [if_neg hcond, if_neg hcond]

/-- What a successful `constructBuf` run consists of: the engine parse
succeeded and the handle went through exactly one release step. -/
lemma constructBuf_ok (parse : List Nat → Except String Doc) (b : List Nat)
    (h : Handle) (hok : constructBuf parse b = Except.ok h) :
    ∃ d, parse b = Except.ok d ∧ h = Handle.close { doc := d, releaseCount := 0 } := by
  unfold constructBuf at hok
  cases hp : parse b with
  | ok d =>
      rw [hp] at hok
      injection hok with hok
      exact ⟨d, rfl, hok.symm⟩
  | error m =>
      rw [hp] at hok
      simp at hok

/-- Each rounded field is an integer multiple of 1/1000 and lies within
1/2000 of the raw value: it is the raw value rounded to 3 decimal digits. -/
lemma toFixed3_spec (q : ℚ) :
    (∃ n : ℤ, toFixed3 q = n / 1000) ∧ |toFixed3 q - q| ≤ 1 / 2000 := by
  constructor
  · exact ⟨round (q * 1000), rfl⟩
  · have hdiff : toFixed3 q - q = ((round (q * 1000) : ℤ) - q * 1000) / 1000 := by
      unfold toFixed3
      ring
    have habs : |(1000 : ℚ)| = 1000 := abs_of_pos (by norm_num)
    rw [hdiff, abs_div, habs, abs_sub_comm]
    have hround : |q * 1000 - (round (q * 1000) : ℤ)| ≤ 1 / 2 := abs_sub_round (q * 1000)
    have hnn : 0 ≤ |q * 1000 - ((round (q * 1000) : ℤ) : ℚ)| := abs_nonneg _
    linarith

/-! Claim theorems. -/

/-- C2: on the canonical options path, when the document's intrinsic size is
non-degenerate and the engine returns an empty payload, `render` does not
return that result: it retries by re-invoking itself with the identical
options (consuming one unit of fuel, advancing the engine-invocation
counter), and for a non-degenerate document no result with an empty payload
is ever surfaced to the caller. -/
theorem render_retry_on_empty (doc : Doc) (eng : EngineCall → Nat → EngineResult)
    (fuel k : Nat) (o : RenderOptions)
    (hdoc : 0 < doc.width + doc.height)
    (hempty : (eng (callOfOptions o) k).data.length = 0) :
    renderOptions doc eng (fuel + 1) k o = renderOptions doc eng fuel (k + 1) o ∧
    ∀ r, renderOptions doc eng (fuel + 1) k o = some r → r.data.length ≠ 0 := by
  constructor
  · simp only [renderOptions]
    rw [if_pos ⟨hdoc, hempty⟩]
  · exact fun r hr => renderOptions_ok_nonempty doc eng hdoc _ _ _ r hr

/-- Witness for C2 on the thin 1x0 document and the transiently-failing
engine: the first call is retried and the retry's non-empty result is the
one surfaced. -/
theorem render_retry_on_empty_witness :
    0 < docThin.width + docThin.height ∧
    (engTransient (callOfOptions {}) 0).data.length = 0 ∧
    (renderOptions docThin engTransient 2 0 {} = renderOptions docThin engTransient 1 1 {} ∧
      ∀ r, renderOptions docThin engTransient 2 0 {} = some r → r.data.length ≠ 0) :=
  ⟨by decide, by decide,
    render_retry_on_empty docThin engTransient 1 0 {} (by decide) (by decide)⟩

/-- C3: on a degenerate document (intrinsic width plus height equal to
zero) the canonical path never retries: the engine's result is returned
unmodified, even when its payload is empty. -/
theorem render_no_retry_degenerate (doc : Doc) (eng : EngineCall → Nat → EngineResult)
    (fuel k : Nat) (o : RenderOptions)
    (hdeg : doc.width + doc.height = 0) :
    renderOptions doc eng (fuel + 1) k o = some (eng (callOfOptions o) k) := by
  simp only [renderOptions]
  rw [if_neg]
  intro hcond
  rw [hdeg] at hcond
  exact absurd hcond.1 (by norm_num)

/-- Witness for C3 on the zero-size document and the always-empty engine:
the empty result is surfaced as is, with no retry. -/
theorem render_no_retry_degenerate_witness :
    docZero.width + docZero.height = 0 ∧
    renderOptions docZero engEmpty 1 0 {} = some (engEmpty (callOfOptions {}) 0) :=
  ⟨by decide, render_no_retry_degenerate docZero engEmpty 0 0 {} (by decide)⟩

/-- C4: every bounding box `autocrop` returns has all four fields equal to
the engine's raw values rounded to 3 decimal digits: each returned field is
an integer multiple of 1/1000 lying within 1/2000 of the corresponding raw
field, so no caller observes unrounded geometry. -/
theorem autocrop_rounds_three_decimals (area : RawBBox) :
    autocrop area = ⟨toFixed3 area.x, toFixed3 area.y, toFixed3 area.width, toFixed3 area.height⟩ ∧
    ((∃ n : ℤ, (autocrop area).x = n / 1000) ∧
      (∃ n : ℤ, (autocrop area).y = n / 1000) ∧
      (∃ n : ℤ, (autocrop area).width = n / 1000) ∧
      (∃ n : ℤ, (autocrop area).height = n / 1000)) ∧
    |(autocrop area).x - area.x| ≤ 1 / 2000 ∧
    |(autocrop area).y - area.y| ≤ 1 / 2000 ∧
    |(autocrop area).width - area.width| ≤ 1 / 2000 ∧
    |(autocrop area).height - area.height| ≤ 1 / 2000 :=
  ⟨rfl,
    ⟨(toFixed3_spec area.x).1, (toFixed3_spec area.y).1,
      (toFixed3_spec area.width).1, (toFixed3_spec area.height).1⟩,
    (toFixed3_spec area.x).2, (toFixed3_spec area.y).2,
    (toFixed3_spec area.width).2, (toFixed3_spec area.height).2⟩

/-- C5: a constructor input that is neither a Buffer nor a string fails
with the InvalidInputType error, which is a TypeError; the result is the
same for every parse function, so the engine is never consulted. -/
theorem construct_invalid_input_type (parse : List Nat → Except String Doc)
    (v : ConstructorInput) (hv : validInputType v = false) :
    construct parse v = Except.error ConstructError.invalidInputType ∧
    ConstructError.invalidInputType.isTypeError = true := by
  constructor
  · cases v <;> simp_all [construct, validInputType]
  · rfl

/-- Witness for C5: constructing with the integer 7 under an
always-succeeding parser still fails with the TypeError. -/
theorem construct_invalid_input_type_witness :
    validInputType (ConstructorInput.num 7) = false ∧
    (construct parseOkW (ConstructorInput.num 7) =
        Except.error ConstructError.invalidInputType ∧
      ConstructError.invalidInputType.isTypeError = true) :=
  ⟨by decide, construct_invalid_input_type parseOkW (ConstructorInput.num 7) (by decide)⟩

/-- C6: when the engine parse of a valid-typed input fails, construction
fails with a LoadFailure whose message embeds the engine diagnostic (the
diagnostic is a suffix of the surfaced message), and no handle is produced
(the result is an error, not a success). -/
theorem construct_load_failure_message (parse : List Nat → Except String Doc)
    (input : ConstructorInput) (b : List Nat) (msg : String)
    (hb : inputBytes input = some b) (hp : parse b = Except.error msg) :
    construct parse input =
      Except.error (ConstructError.loadFailure ("Rsvg load failure: " ++ msg)) ∧
    ∃ pre, "Rsvg load failure: " ++ msg = pre ++ msg := by
  refine ⟨?_, "Rsvg load failure: ", rfl⟩
  cases input with
  | str s =>
      simp only [inputBytes, Option.some.injEq] at hb
      subst hb
      simp [construct, constructBuf, hp]
  | buf l =>
      simp only [inputBytes, Option.some.injEq] at hb
      subst hb
      simp [construct, constructBuf, hp]
  | num n => simp [inputBytes] at hb
  | bool x => simp [inputBytes] at hb
  | null => simp [inputBytes] at hb
  | undef => simp [inputBytes] at hb

/-- Witness for C6: a one-byte buffer under the always-failing parser with
diagnostic `boom` yields the LoadFailure embedding `boom`. -/
theorem construct_load_failure_message_witness :
    inputBytes (ConstructorInput.buf [0]) = some [0] ∧
    parseFailW [0] = Except.error "boom" ∧
    (construct parseFailW (ConstructorInput.buf [0]) =
        Except.error (ConstructError.loadFailure ("Rsvg load failure: " ++ "boom")) ∧
      ∃ pre, "Rsvg load failure: " ++ "boom" = pre ++ "boom") :=
  ⟨rfl, rfl,
    construct_load_failure_message parseFailW (ConstructorInput.buf [0]) [0] "boom" rfl rfl⟩

/-- C7: constructing from a string is, for every parse function, literally
the same computation as constructing from its UTF-8 byte transcoding: the
same bytes reach the engine, so the two constructions agree on success,
failure, and every field of the resulting handle, in particular on the
document's intrinsic width and height. -/
theorem construct_string_buffer_equiv (parse : List Nat → Except String Doc)
    (s : String) :
    construct parse (ConstructorInput.str s) =
      construct parse (ConstructorInput.buf (utf8Encode s)) := rfl

/-- C8: a legacy positional call with a truthy format string hands the
engine that string case-folded to lowercase (both in the raw view of
`_renderArgs` and in the format-validating engine view), and when the
lowercased string is outside the enumerated format set the call fails with
UnsupportedFormat. -/
theorem renderArgs_lowercases_format (eng : EngineCall → Nat → EngineResult)
    (k : Nat) (w h id : JSVal) (f : String) (hf : f ≠ "") :
    renderArgs eng k w h (JSVal.str f) id =
      Except.ok (eng { width := w, height := h, format := JSVal.str (jsToLowerCase f), id := id } k) ∧
    renderArgsChecked eng k w h (JSVal.str f) id =
      engineChecked eng { width := w, height := h, format := JSVal.str (jsToLowerCase f), id := id } k ∧
    (jsToLowerCase f ∉ supportedFormats →
      renderArgsChecked eng k w h (JSVal.str f) id = Except.error JSError.unsupportedFormat) := by
  have h1 : renderArgsChecked eng k w h (JSVal.str f) id =
      engineChecked eng { width := w, height := h, format := JSVal.str (jsToLowerCase f), id := id } k := by
    simp [renderArgsChecked, lowerFmtArg, hf]
  refine ⟨by simp [renderArgs, lowerFmtArg, hf], h1, fun hns => ?_⟩
  rw [h1]
  simp [engineChecked, hns]

/-- Witness for C8: the format string `BOGUS` is lowercased to `bogus`,
which is not an enumerated format, so the positional call fails with
UnsupportedFormat. -/
theorem renderArgs_lowercases_format_witness :
    ("BOGUS" ≠ "") ∧
    jsToLowerCase "BOGUS" ∉ supportedFormats ∧
    renderArgs engConst 0 JSVal.undef JSVal.undef (JSVal.str "BOGUS") JSVal.undef =
      Except.ok (engConst ⟨JSVal.undef, JSVal.undef, JSVal.str (jsToLowerCase "BOGUS"), JSVal.undef⟩ 0) ∧
    renderArgsChecked engConst 0 JSVal.undef JSVal.undef (JSVal.str "BOGUS") JSVal.undef =
      Except.error JSError.unsupportedFormat :=
  ⟨by decide, by decide,
    (renderArgs_lowercases_format engConst 0 JSVal.undef JSVal.undef JSVal.undef
      "BOGUS" (by decide)).1,
    (renderArgs_lowercases_format engConst 0 JSVal.undef JSVal.undef JSVal.undef
      "BOGUS" (by decide)).2.2 (by decide)⟩

/-- C9: every successful construction consists of a successful engine parse
followed immediately by exactly one load-resource release step
(`close` on the fresh handle), so the returned handle's release count is
exactly 1; every other facade operation is a pure function of the handle
and leaves that count untouched. -/
theorem construct_releases_once (parse : List Nat → Except String Doc)
    (input : ConstructorInput) (b : List Nat) (h : Handle)
    (hb : inputBytes input = some b) (hok : construct parse input = Except.ok h) :
    ∃ d, parse b = Except.ok d ∧
      h = Handle.close { doc := d, releaseCount := 0 } ∧
      h.releaseCount = 1 := by
  have hbuf : constructBuf parse b = Except.ok h := by
    cases input with
    | str s =>
        simp only [inputBytes, Option.some.injEq] at hb
        subst hb
        exact hok
    | buf l =>
        simp only [inputBytes, Option.some.injEq] at hb
        subst hb
        exact hok
    | num n => simp [inputBytes] at hb
    | bool x => simp [inputBytes] at hb
    | null => simp [inputBytes] at hb
    | undef => simp [inputBytes] at hb
  obtain ⟨d, hpd, hhd⟩ := constructBuf_ok parse b h hbuf
  exact ⟨d, hpd, hhd, by rw [hhd]; rfl⟩

/-- Witness for C9: constructing a one-byte buffer under the
always-succeeding parser yields a handle whose release count is exactly 1. -/
theorem construct_releases_once_witness :
    inputBytes (ConstructorInput.buf [1]) = some [1] ∧
    construct parseOkW (ConstructorInput.buf [1]) =
      Except.ok { doc := { width := 3, height := 4 }, releaseCount := 1 } ∧
    ∃ d, parseOkW [1] = Except.ok d ∧
      ({ doc := { width := 3, height := 4 }, releaseCount := 1 } : Handle) =
        Handle.close { doc := d, releaseCount := 0 } ∧
      ({ doc := { width := 3, height := 4 }, releaseCount := 1 } : Handle).releaseCount = 1 :=
  ⟨rfl, rfl,
    construct_releases_once parseOkW (ConstructorInput.buf [1]) [1]
      { doc := { width := 3, height := 4 }, releaseCount := 1 } rfl rfl⟩

/-- C10: `render` with zero arguments, or with one non-object argument (a
number or a string), dispatches to the legacy positional path and returns
whatever the engine produces for that single invocation, with no
empty-buffer retry (the equation holds for every engine, including ones
returning empty buffers), the missing positional parameters arriving as
`undefined` and the falsy format as `null`; whereas `render(null)` passes
the `typeof` object check, is replaced by the empty options object, and
runs the canonical path with its defaults and retry. -/
theorem render_dispatch_shapes (doc : Doc) (eng : EngineCall → Nat → EngineResult)
    (fuel k : Nat) (n : Int) (s : String) :
    render doc eng fuel k [] =
      Except.ok (some (eng ⟨JSVal.undef, JSVal.undef, JSVal.null, JSVal.undef⟩ k)) ∧
    render doc eng fuel k [JSVal.num n] =
      Except.ok (some (eng ⟨JSVal.num n, JSVal.undef, JSVal.null, JSVal.undef⟩ k)) ∧
    render doc eng fuel k [JSVal.str s] =
      Except.ok (some (eng ⟨JSVal.str s, JSVal.undef, JSVal.null, JSVal.undef⟩ k)) ∧
    render doc eng fuel k [JSVal.null] =
      Except.ok (renderOptions doc eng fuel k {}) := by
  refine ⟨?_, ?_, ?_, ?_⟩ <;>
    simp [render, renderArgs, lowerFmtArg, isObjectType, optionsOfHead, Except.map]

/-- C1 counterexample: the call shapes are not equivalent.  First, on the
transiently-failing engine the canonical options call retries past the empty
first buffer while the positional shape `render(width, height, format, id)`
returns the empty buffer directly, so the two shapes differ on equivalent
parameters.  Second, `renderPNG` passes its subelement under the key
`element`, which `render` never reads, so on an id-sensitive engine it
differs from the canonical call with the same id. -/
theorem legacy_call_shapes_cex :
    (render docSquare engTransient 2 0
        [JSVal.num 10, JSVal.num 10, JSVal.str "png", JSVal.str "#e"] ≠
      render docSquare engTransient 2 0
        [JSVal.obj { format := some "png", width := some 10, height := some 10, id := some "#e" }]) ∧
    (renderPNG docPlain engIdSensitive 2 0 (some 1) (some 1) (some "#e") ≠
      render docPlain engIdSensitive 2 0
        [JSVal.obj { format := some "png", width := some 1, height := some 1, id := some "#e" }]) := by
  constructor <;> decide

/-- C1 amended: each of the four legacy helpers is equivalent to the
canonical options call with the same format, width and height but with the
subelement id discarded (the helper stores it under `element`, a key the
canonical path never reads); and the legacy positional shape with a truthy
format string invokes the engine directly, once, with the format
lowercased, bypassing the empty-buffer retry of the canonical path. -/
theorem legacy_call_shapes_amended (doc : Doc) (eng : EngineCall → Nat → EngineResult)
    (fuel k : Nat) (w h : Option Int) (id : Option String)
    (pw ph : Int) (pf pid : String) (hpf : pf ≠ "") :
    renderRaw doc eng fuel k w h id =
      Except.ok (renderOptions doc eng fuel k { format := some "raw", width := w, height := h }) ∧
    renderPNG doc eng fuel k w h id =
      Except.ok (renderOptions doc eng fuel k { format := some "png", width := w, height := h }) ∧
    renderPDF doc eng fuel k w h id =
      Except.ok (renderOptions doc eng fuel k { format := some "pdf", width := w, height := h }) ∧
    renderSVG doc eng fuel k w h id =
      Except.ok (renderOptions doc eng fuel k { format := some "svg", width := w, height := h }) ∧
    render doc eng fuel k [JSVal.num pw, JSVal.num ph, JSVal.str pf, JSVal.str pid] =
      Except.ok (some (eng ⟨JSVal.num pw, JSVal.num ph, JSVal.str (jsToLowerCase pf), JSVal.str pid⟩ k)) := by
  refine ⟨?_, ?_, ?_, ?_, ?_⟩
  · exact congrArg Except.ok (renderOptions_call_congr doc eng
      { format := some "raw", width := w, height := h, element := id }
      { format := some "raw", width := w, height := h } rfl fuel k)
  · exact congrArg Except.ok (renderOptions_call_congr doc eng
      { format := some "png", width := w, height := h, element := id }
      { format := some "png", width := w, height := h } rfl fuel k)
  · exact congrArg Except.ok (renderOptions_call_congr doc eng
      { format := some "pdf", width := w, height := h, element := id }
      { format := some "pdf", width := w, height := h } rfl fuel k)
  · exact congrArg Except.ok (renderOptions_call_congr doc eng
      { format := some "svg", width := w, height := h, element := id }
      { format := some "svg", width := w, height := h } rfl fuel k)
  · simp [render, renderArgs, lowerFmtArg, hpf, isObjectType, Except.map]

/-- Witness for the amended C1 at concrete parameters: the lowercasing
hypothesis holds for the format string `PNG`. -/
theorem legacy_call_shapes_amended_witness :
    ("PNG" ≠ "") ∧
    (renderRaw docPlain engConst 1 0 (some 4) (some 4) (some "#e") =
        Except.ok (renderOptions docPlain engConst 1 0
          { format := some "raw", width := some 4, height := some 4 }) ∧
      renderPNG docPlain engConst 1 0 (some 4) (some 4) (some "#e") =
        Except.ok (renderOptions docPlain engConst 1 0
          { format := some "png", width := some 4, height := some 4 }) ∧
      renderPDF docPlain engConst 1 0 (some 4) (some 4) (some "#e") =
        Except.ok (renderOptions docPlain engConst 1 0
          { format := some "pdf", width := some 4, height := some 4 }) ∧
      renderSVG docPlain engConst 1 0 (some 4) (some 4) (some "#e") =
        Except.ok (renderOptions docPlain engConst 1 0
          { format := some "svg", width := some 4, height := some 4 }) ∧
      render docPlain engConst 1 0 [JSVal.num 4, JSVal.num 4, JSVal.str "PNG", JSVal.str "#e"] =
        Except.ok (some (engConst ⟨JSVal.num 4, JSVal.num 4,
          JSVal.str (jsToLowerCase "PNG"), JSVal.str "#e"⟩ 0))) :=
  ⟨by decide,
    legacy_call_shapes_amended docPlain engConst 1 0 (some 4) (some 4) (some "#e")
      4 4 "PNG" "#e" (by decide)⟩

end Rsvg
